import Mathlib

/-!
Verification of the voxel-space terrain renderer (source files
`source/renderer.py`, `source/main.py`, `source/player.py`).

The numeric values of the renderer (Python floats) are modelled as rationals ℚ;
trigonometric values (`math.sin`, `math.cos`) are supplied as parameters,
since the claims under study quantify over all camera states.  The Python
`int()` conversion truncates toward zero, which is modelled exactly by
`pythonInt`; the Python `%` on integers with a positive modulus agrees with
`Int.emod` of Lean.  Fallible operations (float division by zero, exception
construction) are modelled by explicit outcome types.
-/

namespace Voxel

/-- RGB color triple; each channel is a rational modelling a Python float
or a numpy scalar channel value. -/
structure Color where
  ch0 : ℚ
  ch1 : ℚ
  ch2 : ℚ
deriving DecidableEq

/-- Channel-wise value computed inside `mix_colors` (renderer.py lines 35-37):
`result[i] = (b[i] - a[i]) * factor + a[i]` for the three channels. -/
def mix_colors_result (a b : Color) (factor : ℚ) : Color :=
  ⟨(b.ch0 - a.ch0) * factor + a.ch0,
   (b.ch1 - a.ch1) * factor + a.ch1,
   (b.ch2 - a.ch2) * factor + a.ch2⟩

/-- Model of `mix_colors` (renderer.py lines 25-37).  The Python function
fills the local `result` list but has no `return` statement, so it returns
`None` for every input; this is modelled by `Option Color` with value
`none`. -/
def mix_colors (a b : Color) (factor : ℚ) : Option Color :=
  let _result := mix_colors_result a b factor
  none

/-- Python `int()` conversion applied to a float, modelled on ℚ:
truncation toward zero (ceiling for negative arguments, floor otherwise). -/
def pythonInt (q : ℚ) : ℤ := if q < 0 then ⌈q⌉ else ⌊q⌋

/-- Horizontal map sample index `x = int(player_pos[0] + depth * cos_a)`
(renderer.py line 100). -/
def sample_x (posx cosa : ℚ) (depth : ℕ) : ℤ :=
  pythonInt (posx + (depth : ℚ) * cosa)

/-- Vertical map sample index
`y = int(player_pos[1] + depth * sin_a) % map_height` (renderer.py
line 106).  Python `%` with a positive modulus agrees with `Int.emod`,
which is the `%` of Lean on ℤ. -/
def sample_y (posy sina : ℚ) (depth : ℕ) (mapHeight : ℤ) : ℤ :=
  pythonInt (posy + (depth : ℚ) * sina) % mapHeight

/-- Curvature term `(depth / ray_distance) ** 2 * 500` (renderer.py
line 112). -/
def curvature (rayDistance depth : ℕ) : ℚ :=
  ((depth : ℚ) / (rayDistance : ℚ)) ^ 2 * 500

/-- Screen-row projection (renderer.py line 117):
`height_on_screen = int((player_height - corrected_height) / depth * scale_height * tan_of_pitch)`,
where `depth` has already been replaced by the fisheye-corrected depth on
line 116 and `tan_of_pitch = sin(player_pitch)` (line 91). -/
def height_on_screen (playerHeight correctedHeight correctedDepth scaleHeight tanOfPitch : ℚ) : ℤ :=
  pythonInt ((playerHeight - correctedHeight) / correctedDepth * scaleHeight * tanOfPitch)

/-- Parameters of one ray of `raycast`, fixed during the depth-marching
loop (renderer.py lines 93-117).  `sina`/`cosa` are the values of
`math.sin(ray_angle)`/`math.cos(ray_angle)` and `cosCorr` is
`math.cos(player_angle - ray_angle)`; they are carried as data because
the claims quantify over every camera state.  `heightmap x y` models
`heightmap[x, y][0]` (channel 0) and `colormap x y` models
`colormap[x, y]`. -/
structure StepParams where
  posx : ℚ
  posy : ℚ
  sina : ℚ
  cosa : ℚ
  cosCorr : ℚ
  playerHeight : ℚ
  scaleHeight : ℚ
  tanOfPitch : ℚ
  rayDistance : ℕ
  mapWidth : ℤ
  mapHeight : ℤ
  heightmap : ℤ → ℤ → ℚ
  colormap : ℤ → ℤ → Color

/-- Outcome of one iteration of the depth loop (renderer.py lines 99-117).
`skipped` models a `continue` from one of the bounds checks; `divFault`
models the floating-point division on line 117 being reached with a zero
corrected depth (the source has no guard there: the float division
produces inf/NaN, which `int()` then turns into garbage, so the outcome is
recorded as a fault rather than as a painted value); `hit c h` models a
sampled terrain cell with color `c` and projected screen row `h`. -/
inductive DepthOutcome where
  | skipped : DepthOutcome
  | divFault : DepthOutcome
  | hit : Color → ℤ → DepthOutcome
deriving DecidableEq

/-- One iteration of the depth loop of `raycast` (renderer.py lines
99-117), up to but not including the screen-buffer update.  The source
binds the locals `x`, `y`, `curvature`, `corrected_height` and reassigns
`depth`; here the same expressions appear inline through `sample_x`,
`sample_y`, `curvature` and `height_on_screen`. -/
def depthStep (p : StepParams) (depth : ℕ) : DepthOutcome :=
  if sample_x p.posx p.cosa depth < 0 ∨ p.mapWidth ≤ sample_x p.posx p.cosa depth then
    DepthOutcome.skipped
  else if sample_y p.posy p.sina depth p.mapHeight < 0 ∨
      p.mapHeight ≤ sample_y p.posy p.sina depth p.mapHeight then
    DepthOutcome.skipped
  else if (depth : ℚ) * p.cosCorr = 0 then
    DepthOutcome.divFault
  else
    DepthOutcome.hit
      (p.colormap (sample_x p.posx p.cosa depth) (sample_y p.posy p.sina depth p.mapHeight))
      (height_on_screen p.playerHeight
        (p.heightmap (sample_x p.posx p.cosa depth) (sample_y p.posy p.sina depth p.mapHeight)
          - curvature p.rayDistance depth)
        ((depth : ℚ) * p.cosCorr) p.scaleHeight p.tanOfPitch)

/-- State of one screen column during `raycast` (renderer.py lines 93-152):
`ybuf` is `y_buffer[ray_index]`, `contacted` the `contacted` flag, `mvp`
the `max_vertical_position` variable, `col` the slice the column owns of
`screen_data` (a total function on ℤ so that out-of-range writes can be
observed), and `written` the list of row indices written by the paint and
fading loops, in order. -/
structure ColState where
  ybuf : ℤ
  contacted : Bool
  mvp : ℤ
  col : ℤ → Color
  written : List ℤ

/-- Initial column state (renderer.py lines 85-98): the whole buffer is
filled with the background color, `y_buffer` starts at `screen_height`,
`contacted` at `False` and `max_vertical_position` at `-1`. -/
def initColState (screenHeight : ℤ) (bg : Color) : ColState :=
  { ybuf := screenHeight, contacted := false, mvp := -1, col := fun _ => bg, written := [] }

/-- List of the integers in `[lo, hi)`, modelling `range(lo, hi)` over
painted screen rows. -/
def intRange (lo hi : ℤ) : List ℤ :=
  (List.range (hi - lo).toNat).map (fun i => lo + (i : ℤ))

/-- First-contact update (renderer.py lines 120-122): on the first hit of
the column, `y_buffer[ray_index] = min(height_on_screen, screen_height)`
and `contacted = True`. -/
def contactUpdate (screenHeight h : ℤ) (s : ColState) : ColState :=
  if s.contacted then s else { s with ybuf := min h screenHeight, contacted := true }

/-- Lower clamp of the projected row (renderer.py lines 125-126):
`if height_on_screen < 0: height_on_screen = 0`. -/
def clampNonneg (h : ℤ) : ℤ := if h < 0 then 0 else h

/-- Screen-buffer update for one hit of the depth loop (renderer.py lines
119-134): first-contact initialization, lower clamp, then, when the
clamped row is above the occlusion record, `max_vertical_position`
becomes `y_buffer[ray_index] - 1`, the rows `[height_on_screen,
y_buffer[ray_index])` are painted with the sampled color, and
`y_buffer[ray_index]` becomes the clamped row. -/
def paintStep (screenHeight : ℤ) (c : Color) (h : ℤ) (s : ColState) : ColState :=
  if clampNonneg h < (contactUpdate screenHeight h s).ybuf then
    { contactUpdate screenHeight h s with
      mvp := (contactUpdate screenHeight h s).ybuf - 1,
      col := fun r =>
        if clampNonneg h ≤ r ∧ r < (contactUpdate screenHeight h s).ybuf then c
        else (contactUpdate screenHeight h s).col r,
      written := (contactUpdate screenHeight h s).written
        ++ intRange (clampNonneg h) (contactUpdate screenHeight h s).ybuf,
      ybuf := clampNonneg h }
  else contactUpdate screenHeight h s

/-- Channel-wise computation inside the fading loop (renderer.py lines
148-151): `result[i] = (current_color[i] - background_color[i]) * factor
+ background_color[i]`. -/
def blendToBackground (current bg : Color) (factor : ℚ) : Color :=
  ⟨(current.ch0 - bg.ch0) * factor + bg.ch0,
   (current.ch1 - bg.ch1) * factor + bg.ch1,
   (current.ch2 - bg.ch2) * factor + bg.ch2⟩

/-- One iteration of the fading loop (renderer.py lines 142-152) at offset
`delta`, with `m` the value of `max_vertical_position`: the row
`m + delta` is skipped when negative, otherwise it is re-written with the
blend of its current color toward the background at factor
`delta / fading_size`. -/
def fadeIter (bg : Color) (fadingSize : ℕ) (m : ℤ) (st : ColState) (delta : ℕ) : ColState :=
  if m + (delta : ℤ) < 0 then st
  else
    { st with
      col := fun r =>
        if r = m + (delta : ℤ) then
          blendToBackground (st.col (m + (delta : ℤ))) bg ((delta : ℚ) / (fadingSize : ℚ))
        else st.col r,
      written := st.written ++ [m + (delta : ℤ)] }

/-- Fading phase of one column (renderer.py lines 137-152): skipped
entirely when `max_vertical_position < 0`, otherwise the fading loop runs
for `delta` in `range(0, fading_size)`. -/
def fadeColumn (fadingSize : ℕ) (bg : Color) (s : ColState) : ColState :=
  if s.mvp < 0 then s
  else (List.range fadingSize).foldl (fadeIter bg fadingSize s.mvp) s

/-- Effect of one depth-loop outcome on the column state: a hit runs the
screen-buffer update, a skip (or the unguarded division fault, for runs
that never reach it) leaves the state unchanged. -/
def applyOutcome (screenHeight : ℤ) (o : DepthOutcome) (st : ColState) : ColState :=
  match o with
  | DepthOutcome.hit c h => paintStep screenHeight c h st
  | _ => st

/-- Fold of the outcomes of the depth loop over the column state. -/
def depthFold (screenHeight : ℤ) (os : List DepthOutcome) (s : ColState) : ColState :=
  os.foldl (fun st o => applyOutcome screenHeight o st) s

/-- Depth-marching phase of one column of `raycast` (renderer.py lines
99-134): `depth` runs over `range(1, ray_distance)`. -/
def runColumnPaint (p : StepParams) (screenHeight : ℤ) (bg : Color) : ColState :=
  depthFold screenHeight
    ((List.range (p.rayDistance - 1)).map (fun i => depthStep p (i + 1)))
    (initColState screenHeight bg)

/-- One full column of `raycast` (renderer.py lines 93-152): depth
marching followed by the fading phase. -/
def runColumn (p : StepParams) (screenHeight : ℤ) (fadingSize : ℕ) (bg : Color) : ColState :=
  fadeColumn fadingSize bg (runColumnPaint p screenHeight bg)

/-- Background (sky) color configuration (renderer.py lines 157-167). -/
structure BackgroundConfig where
  min_height : ℚ
  max_height : ℚ
  min_color : Color
  max_color : Color
deriving DecidableEq

/-- Model of `BackgroundConfig.__init__` (renderer.py lines 163-167): the
constructor stores its four arguments and performs no validation at all,
so construction always succeeds; `Option` records whether construction
can fail. -/
def BackgroundConfig.make (mn mx : ℚ) (cmin cmax : Color) : Option BackgroundConfig :=
  some ⟨mn, mx, cmin, cmax⟩

/-- Model of `RendererSettings.get_background_color` (renderer.py lines
194-206): `np.clip(height, min_height, max_height)` followed by
`coeff = (clamped - min_height) / (max_height - min_height)` and a
channel-wise interpolation.  When `max_height - min_height = 0` the
Python float division is `0.0 / 0.0 = NaN`, which poisons every channel;
that degenerate outcome is modelled as `none`. -/
def get_background_color (cfg : BackgroundConfig) (height : ℚ) : Option Color :=
  if cfg.max_height - cfg.min_height = 0 then none
  else
    some (⟨(cfg.max_color.ch0 - cfg.min_color.ch0)
            * ((min (max height cfg.min_height) cfg.max_height - cfg.min_height)
               / (cfg.max_height - cfg.min_height)) + cfg.min_color.ch0,
          (cfg.max_color.ch1 - cfg.min_color.ch1)
            * ((min (max height cfg.min_height) cfg.max_height - cfg.min_height)
               / (cfg.max_height - cfg.min_height)) + cfg.min_color.ch1,
          (cfg.max_color.ch2 - cfg.min_color.ch2)
            * ((min (max height cfg.min_height) cfg.max_height - cfg.min_height)
               / (cfg.max_height - cfg.min_height)) + cfg.min_color.ch2⟩)

/-- Loaded image, as produced by `pg.surfarray.array3d` in `load_map`
(main.py lines 33-37): `len(img)` is `width`, `len(img[0])` is `height`. -/
structure Image where
  width : ℕ
  height : ℕ
  pixel : ℤ → ℤ → Color

/-- Data structure with the two loaded maps (renderer.py lines 9-22). -/
structure Map where
  color_map : Image
  heightmap : Image

/-- Possible results of `load_map` (main.py lines 17-42).
`typeErrorSuperInit` models what actually happens on a size mismatch:
`SizesNotMatchException.__init__` (main.py lines 8-14) calls
`super.__init__(*args)` — the builtin type `super` itself, not a
`super()` proxy — so constructing the exception raises `TypeError`
before the intended exception can be raised. -/
inductive LoadResult where
  | fileNotFound : LoadResult
  | typeErrorSuperInit : LoadResult
  | ok : Map → LoadResult

/-- Model of `load_map` (main.py lines 17-42).  File existence is
abstracted by the two booleans and the loaded images by the two `Image`
arguments; the dimension check compares `len(colormap)` with
`len(heightmap)` and `len(colormap[0])` with `len(heightmap[0])`. -/
def load_map (existsColor existsHeight : Bool) (colorImg heightImg : Image) : LoadResult :=
  if !existsColor then LoadResult.fileNotFound
  else if !existsHeight then LoadResult.fileNotFound
  else if colorImg.width ≠ heightImg.width ∨ colorImg.height ≠ heightImg.height then
    LoadResult.typeErrorSuperInit
  else LoadResult.ok ⟨colorImg, heightImg⟩

/-- Screen-row formula as the specification words it:
`round((camera.altitude - corrected_elevation) / corrected_depth *
vertical_scale * sin(camera.pitch))`.  Stated from the spec for
comparison with `height_on_screen`, which is taken from the source. -/
def heightOnScreenRound (playerHeight correctedHeight correctedDepth scaleHeight tanOfPitch : ℚ) : ℤ :=
  round ((playerHeight - correctedHeight) / correctedDepth * scaleHeight * tanOfPitch)

/-- Sky/background color used in the concrete runs below. -/
def cA : Color := ⟨10, 20, 30⟩

/-- Terrain color of map column 0 in the concrete runs below. -/
def cP0 : Color := ⟨1, 2, 3⟩

/-- Terrain color of map column 1 in the concrete runs below. -/
def cP1 : Color := ⟨4, 5, 6⟩

/-- Concrete ray: camera at `(-1, 0)` with `cos = 1`, `sin = 0`, fisheye
factor `1`, altitude `0`, scale and pitch factors `1`, draw distance `3`,
over a 2×1 map with elevations 45 (x = 0) and 215 (x = 1).  Depth 1
projects to row 10 and depth 2 to row 3. -/
def P1 : StepParams :=
  { posx := -1, posy := 0, sina := 0, cosa := 1, cosCorr := 1,
    playerHeight := 0, scaleHeight := 1, tanOfPitch := 1,
    rayDistance := 3, mapWidth := 2, mapHeight := 1,
    heightmap := fun x _ => if x = 0 then 45 else 215,
    colormap := fun x _ => if x = 0 then cP0 else cP1 }

/-- Concrete ray whose single depth step projects to `17/10` before the
`int()` conversion: camera at `(0, 0)`, `cos = sin = 0`, draw distance 2,
1×1 map with elevation `1233/10`. -/
def P4 : StepParams :=
  { posx := 0, posy := 0, sina := 0, cosa := 0, cosCorr := 1,
    playerHeight := 0, scaleHeight := 1, tanOfPitch := 1,
    rayDistance := 2, mapWidth := 1, mapHeight := 1,
    heightmap := fun _ _ => 1233 / 10,
    colormap := fun _ _ => cP0 }

/-- Concrete ray with `camera.position.x + depth * cos_a = -1/2`: Python
`int()` truncates it to `0` (inside the map) while `floor` gives `-1`
(outside). -/
def P5 : StepParams :=
  { posx := -1 / 2, posy := 0, sina := 0, cosa := 0, cosCorr := 1,
    playerHeight := 0, scaleHeight := 1, tanOfPitch := 1,
    rayDistance := 2, mapWidth := 1, mapHeight := 1,
    heightmap := fun _ _ => 0,
    colormap := fun _ _ => cP0 }

/-- Concrete ray exactly perpendicular to the fisheye-correction axis:
`cos(player_angle - ray_angle) = 0`, so the corrected depth is zero at
every depth step. -/
def P7 : StepParams :=
  { posx := 0, posy := 0, sina := 0, cosa := 0, cosCorr := 0,
    playerHeight := 0, scaleHeight := 1, tanOfPitch := 1,
    rayDistance := 2, mapWidth := 1, mapHeight := 1,
    heightmap := fun _ _ => 0,
    colormap := fun _ _ => cP0 }

/-- Column state already past first contact, used to witness the
occlusion-monotonicity theorem. -/
def sWit : ColState := ⟨5, true, -1, fun _ => cA, []⟩

/-- Column state with a painted segment (`mvp = 0`), used to witness the
fading-blend theorem. -/
def sFade : ColState := ⟨3, true, 0, fun _ => cP1, []⟩

/-- Column state before its final paint (`y_buffer = 10`), used to
witness the fading-start theorem. -/
def sWit6 : ColState := ⟨10, true, -1, fun _ => cA, []⟩

/-- Color image of size 2×2, used in the `load_map` run. -/
def imgA : Image := ⟨2, 2, fun _ _ => cP0⟩

/-- Height image of size 3×3, used in the `load_map` run. -/
def imgB : Image := ⟨3, 3, fun _ _ => cP1⟩

/-- Helper: the fading iteration does not change rows other than the one
it blends. -/
theorem fadeIter_col_ne (bg : Color) (f : ℕ) (m : ℤ) (st : ColState) (delta : ℕ) (r : ℤ)
    (hr : r ≠ m + (delta : ℤ)) :
    (fadeIter bg f m st delta).col r = st.col r := by
  unfold fadeIter
  split_ifs with h1
  · rfl
  · simp [hr]

/-- Helper: when `max_vertical_position` is non-negative, the fading
iteration at offset `delta` blends the row `m + delta` toward the
background with factor `delta / fading_size`. -/
theorem fadeIter_col_self (bg : Color) (f : ℕ) (m : ℤ) (st : ColState) (delta : ℕ)
    (hm : 0 ≤ m) :
    (fadeIter bg f m st delta).col (m + (delta : ℤ))
      = blendToBackground (st.col (m + (delta : ℤ))) bg ((delta : ℚ) / (f : ℚ)) := by
  unfold fadeIter
  rw [if_neg (by omega : ¬ m + (delta : ℤ) < 0)]
  simp

/-- Helper: a row not of the form `m + delta` with `delta < n` is untouched
by the first `n` fading iterations. -/
theorem fade_fold_untouched (bg : Color) (f : ℕ) (m : ℤ) (s0 : ColState) (r : ℤ) :
    ∀ n : ℕ, (∀ d : ℕ, d < n → r ≠ m + (d : ℤ)) →
      ((List.range n).foldl (fadeIter bg f m) s0).col r = s0.col r := by
  intro n
  induction n with
  | zero => intro _; rfl
  | succ k ih =>
      intro hall
      rw [List.range_succ, List.foldl_append, List.foldl_cons, List.foldl_nil]
      rw [fadeIter_col_ne bg f m _ k r (hall k (Nat.lt_succ_self k))]
      exact ih fun d hd => hall d (Nat.lt_succ_of_lt hd)

/-- Helper: after the first `n` fading iterations, the row `m + delta`
(for `delta < n`) holds the blend of its pre-fading color toward the
background with factor `delta / fading_size`. -/
theorem fade_fold_col_at (bg : Color) (f : ℕ) (m : ℤ) (s0 : ColState) (hm : 0 ≤ m) (delta : ℕ) :
    ∀ n : ℕ, delta < n →
      ((List.range n).foldl (fadeIter bg f m) s0).col (m + (delta : ℤ))
        = blendToBackground (s0.col (m + (delta : ℤ))) bg ((delta : ℚ) / (f : ℚ)) := by
  intro n
  induction n with
  | zero => intro hcon; exact absurd hcon (Nat.not_lt_zero delta)
  | succ k ih =>
      intro hdk
      rw [List.range_succ, List.foldl_append, List.foldl_cons, List.foldl_nil]
      by_cases hek : delta = k
      · subst hek
        rw [fadeIter_col_self bg f m _ delta hm,
          fade_fold_untouched bg f m s0 (m + (delta : ℤ)) delta (fun d hd => by omega)]
      · have hdk2 : delta < k := by omega
        rw [fadeIter_col_ne bg f m _ k _ (by omega : (m + (delta : ℤ)) ≠ m + (k : ℤ))]
        exact ih hdk2

/-- Helper: a fading iteration at a non-negative row appends that row to
the write log. -/
theorem fadeIter_written (bg : Color) (f : ℕ) (m : ℤ) (st : ColState) (delta : ℕ)
    (hm : 0 ≤ m) :
    (fadeIter bg f m st delta).written = st.written ++ [m + (delta : ℤ)] := by
  unfold fadeIter
  rw [if_neg (by omega : ¬ m + (delta : ℤ) < 0)]

/-- Helper: the first `n` fading iterations append exactly the rows
`m + delta` for `delta` in `[0, n)` to the write log. -/
theorem fade_fold_written (bg : Color) (f : ℕ) (m : ℤ) (s0 : ColState) (hm : 0 ≤ m) :
    ∀ n : ℕ, ((List.range n).foldl (fadeIter bg f m) s0).written
      = s0.written ++ (List.range n).map (fun d => m + (d : ℤ)) := by
  intro n
  induction n with
  | zero => simp
  | succ k ih =>
      rw [List.range_succ, List.foldl_append, List.foldl_cons, List.foldl_nil,
        fadeIter_written bg f m _ k hm, ih]
      simp

/-- Helper: write log of the whole fading phase when a segment was
painted. -/
theorem fade_written (f : ℕ) (bg : Color) (t : ColState) (hm : 0 ≤ t.mvp) :
    (fadeColumn f bg t).written = t.written ++ (List.range f).map (fun d => t.mvp + (d : ℤ)) := by
  unfold fadeColumn
  rw [if_neg (not_lt.mpr hm)]
  exact fade_fold_written bg f t.mvp t hm f

/-- Helper: the lower clamp of the projected row is non-negative. -/
theorem clampNonneg_nonneg (h : ℤ) : 0 ≤ clampNonneg h := by
  unfold clampNonneg
  split_ifs <;> omega

/-- Helper: once the column has contacted terrain, the first-contact
update is the identity. -/
theorem contactUpdate_of_contacted (screenHeight h : ℤ) (s : ColState)
    (hc : s.contacted = true) :
    contactUpdate screenHeight h s = s := by
  unfold contactUpdate
  rw [if_pos hc]

/-- Helper: after any screen-buffer update the column counts as
contacted. -/
theorem paintStep_contacted (screenHeight : ℤ) (c : Color) (h : ℤ) (s : ColState) :
    (paintStep screenHeight c h s).contacted = true := by
  unfold paintStep contactUpdate
  split_ifs <;> simp_all

/-- Helper: once contacted, a screen-buffer update never raises the
occlusion record. -/
theorem paintStep_ybuf_le (screenHeight : ℤ) (c : Color) (h : ℤ) (s : ColState)
    (hc : s.contacted = true) :
    (paintStep screenHeight c h s).ybuf ≤ s.ybuf := by
  unfold paintStep
  rw [contactUpdate_of_contacted screenHeight h s hc]
  split_ifs with h1
  · exact le_of_lt h1
  · exact le_refl s.ybuf

/-- Helper: when a paint actually happens, `max_vertical_position` is set
to the pre-paint occlusion value minus one. -/
theorem paintStep_mvp (screenHeight : ℤ) (c : Color) (h : ℤ) (s : ColState)
    (hc : s.contacted = true) (hp : clampNonneg h < s.ybuf) :
    (paintStep screenHeight c h s).mvp = s.ybuf - 1 := by
  unfold paintStep
  rw [contactUpdate_of_contacted screenHeight h s hc, if_pos hp]

/-- Helper: applying one depth-loop outcome preserves contact. -/
theorem applyOutcome_contacted (screenHeight : ℤ) (o : DepthOutcome) (st : ColState)
    (hc : st.contacted = true) :
    (applyOutcome screenHeight o st).contacted = true := by
  cases o with
  | hit c h => exact paintStep_contacted screenHeight c h st
  | skipped => exact hc
  | divFault => exact hc

/-- Helper: applying one depth-loop outcome never raises the occlusion
record of a contacted column. -/
theorem applyOutcome_ybuf_le (screenHeight : ℤ) (o : DepthOutcome) (st : ColState)
    (hc : st.contacted = true) :
    (applyOutcome screenHeight o st).ybuf ≤ st.ybuf := by
  cases o with
  | hit c h => exact paintStep_ybuf_le screenHeight c h st hc
  | skipped => exact le_refl st.ybuf
  | divFault => exact le_refl st.ybuf


/-- Claim C10: for every pair of 3-channel colors and every factor,
`mix_colors` returns `None` — it fills a local result array with
`(b[i] - a[i]) * factor + a[i]` per channel but has no return statement,
so the blended color it documents is never produced for any caller. -/
theorem mix_colors_returns_none (a b : Color) (factor : ℚ) :
    mix_colors a b factor = none ∧
    (mix_colors_result a b factor).ch0 = (b.ch0 - a.ch0) * factor + a.ch0 ∧
    (mix_colors_result a b factor).ch1 = (b.ch1 - a.ch1) * factor + a.ch1 ∧
    (mix_colors_result a b factor).ch2 = (b.ch2 - a.ch2) * factor + a.ch2 :=
  ⟨rfl, rfl, rfl, rfl⟩

/-- Claim C3: within a single column, after first contact (and so in
particular after the first painted segment), the per-column occlusion
record `y_buffer[ray_index]` never increases across subsequent depth
steps, whatever outcomes the remaining depth steps produce. -/
theorem ybuffer_never_increases_after_contact (screenHeight : ℤ) (os : List DepthOutcome)
    (s : ColState) (hc : s.contacted = true) :
    (depthFold screenHeight os s).ybuf ≤ s.ybuf := by
  induction os generalizing s with
  | nil => exact le_refl s.ybuf
  | cons o os ih =>
      have h2 := applyOutcome_contacted screenHeight o s hc
      have h1 := applyOutcome_ybuf_le screenHeight o s hc
      have h3 : depthFold screenHeight (o :: os) s
          = depthFold screenHeight os (applyOutcome screenHeight o s) := rfl
      rw [h3]
      exact le_trans (ih (applyOutcome screenHeight o s) h2) h1

/-- Witness for claim C3 at a concrete contacted column state and a
concrete hit. -/
theorem ybuffer_never_increases_after_contact_witness :
    sWit.contacted = true ∧ (depthFold 5 [DepthOutcome.hit cP0 3] sWit).ybuf ≤ sWit.ybuf :=
  ⟨rfl, ybuffer_never_increases_after_contact 5 [DepthOutcome.hit cP0 3] sWit rfl⟩

/-- Claim C2 counterexample: in a concrete full-pipeline run the terrain
pixel at the first faded row (offset `delta = 0`) holds the sky color
after fading, not the original terrain color: the depth phase paints row
9 with the terrain color `cP1`, and the fading phase overwrites row 9
(its `delta = 0` row) with the sky color `cA ≠ cP1`. -/
theorem fading_delta_zero_yields_sky_not_terrain :
    (runColumnPaint P1 20 cA).col 9 = cP1 ∧
    (runColumn P1 20 4 cA).col 9 = cA ∧
    cA ≠ cP1 := by
  have h1 : depthStep P1 1 = DepthOutcome.hit cP0 10 := by
    norm_num [depthStep, sample_x, sample_y, pythonInt, curvature, height_on_screen, P1, cP0]
  have h2 : depthStep P1 2 = DepthOutcome.hit cP1 3 := by
    norm_num [depthStep, sample_x, sample_y, pythonInt, curvature, height_on_screen, P1, cP1]
  have hr : List.range (P1.rayDistance - 1) = [0, 1] := by decide
  have hf : List.range 4 = [0, 1, 2, 3] := by decide
  refine ⟨?_, ?_, by simp [cA, cP1]⟩
  · norm_num [runColumnPaint, depthFold, hr, h1, h2, applyOutcome, paintStep,
      contactUpdate, clampNonneg, initColState, intRange, cP0, cP1]
  · norm_num [runColumn, runColumnPaint, depthFold, hr, hf, h1, h2, applyOutcome, paintStep,
      contactUpdate, clampNonneg, initColState, intRange, fadeColumn, fadeIter,
      blendToBackground, cA, cP0, cP1]

/-- Claim C2 (amended): the horizon fading of every faded column is a
linear blend with factor `delta / fading_width`, but it runs from the sky
color toward the terrain color: the faded pixel equals
`(terrain - sky) * (delta / fading_width) + sky`, so at `delta = 0` it is
the pure sky (background) color, and as `delta` grows toward
`fading_width - 1` it approaches the original terrain color. -/
theorem fading_blend_linear_inverted (f : ℕ) (bg : Color) (s : ColState) (delta : ℕ)
    (hm : 0 ≤ s.mvp) (hd : delta < f) :
    (fadeColumn f bg s).col (s.mvp + (delta : ℤ))
      = blendToBackground (s.col (s.mvp + (delta : ℤ))) bg ((delta : ℚ) / (f : ℚ)) ∧
    (delta = 0 → (fadeColumn f bg s).col (s.mvp + (delta : ℤ)) = bg) := by
  have hmain : (fadeColumn f bg s).col (s.mvp + (delta : ℤ))
      = blendToBackground (s.col (s.mvp + (delta : ℤ))) bg ((delta : ℚ) / (f : ℚ)) := by
    unfold fadeColumn
    rw [if_neg (not_lt.mpr hm)]
    exact fade_fold_col_at bg f s.mvp s hm delta f hd
  refine ⟨hmain, fun h0 => ?_⟩
  subst h0
  rw [hmain]
  simp [blendToBackground]

/-- Witness for claim C2 (amended) at a concrete faded column state. -/
theorem fading_blend_linear_inverted_witness :
    (0 : ℤ) ≤ sFade.mvp ∧ 1 < 2 ∧
    ((fadeColumn 2 cA sFade).col (sFade.mvp + ((1 : ℕ) : ℤ))
        = blendToBackground (sFade.col (sFade.mvp + ((1 : ℕ) : ℤ))) cA
            (((1 : ℕ) : ℚ) / ((2 : ℕ) : ℚ)) ∧
      ((1 : ℕ) = 0 → (fadeColumn 2 cA sFade).col (sFade.mvp + ((1 : ℕ) : ℤ)) = cA)) :=
  ⟨by norm_num [sFade], by norm_num,
    fading_blend_linear_inverted 2 cA sFade 1 (by norm_num [sFade]) (by norm_num)⟩

/-- Claim C1: every write of the paint and fading loops is claimed to
land inside `[0, screen_height)`; the code violates this.  In the
concrete run below (`screen_height = 5`, `fading_size = 2`, a ray whose
first hit projects to row 10 and second to row 3) the fading loop writes
row 5 = `screen_height`, which is outside the buffer: the upper bound is
never clamped before the write. -/
theorem fading_loop_writes_outside_buffer :
    (5 : ℤ) ∈ (runColumn P1 5 2 cA).written ∧ ¬ ((0 : ℤ) ≤ 5 ∧ (5 : ℤ) < 5) := by
  have h1 : depthStep P1 1 = DepthOutcome.hit cP0 10 := by
    norm_num [depthStep, sample_x, sample_y, pythonInt, curvature, height_on_screen, P1, cP0]
  have h2 : depthStep P1 2 = DepthOutcome.hit cP1 3 := by
    norm_num [depthStep, sample_x, sample_y, pythonInt, curvature, height_on_screen, P1, cP1]
  have hr : List.range (P1.rayDistance - 1) = [0, 1] := by decide
  have hf : List.range 2 = [0, 1] := by decide
  refine ⟨?_, by omega⟩
  norm_num [runColumn, runColumnPaint, depthFold, hr, hf, h1, h2, applyOutcome, paintStep,
    contactUpdate, clampNonneg, initColState, intRange, fadeColumn, fadeIter,
    blendToBackground, cA, cP0, cP1]

/-- Claim C4 counterexample: a processed depth step whose projected
screen coordinate (Python `int()`, truncation toward zero) is 1 while the
rounded formula claimed by the spec gives 2: the projection value is
`17/10`. -/
theorem height_on_screen_truncates_not_rounds :
    depthStep P4 1 = DepthOutcome.hit cP0 1 ∧
    heightOnScreenRound P4.playerHeight (P4.heightmap 0 0 - curvature P4.rayDistance 1)
      ((1 : ℚ) * P4.cosCorr) P4.scaleHeight P4.tanOfPitch = 2 ∧
    (1 : ℤ) ≠ 2 := by
  refine ⟨?_, ?_, by norm_num⟩
  · norm_num [depthStep, sample_x, sample_y, pythonInt, curvature, height_on_screen, P4, cP0]
  · norm_num [heightOnScreenRound, P4, curvature, round_eq]

/-- Claim C4 (amended): for every processed depth step, the projected
screen coordinate equals the truncation toward zero (Python `int()`) of
`(camera.altitude - corrected_elevation) / corrected_depth *
vertical_scale * sin(camera.pitch)`, with
`corrected_depth = depth * cos(camera.heading - ray_angle)`. -/
theorem depth_step_screen_coordinate_truncated (p : StepParams) (d : ℕ) (c : Color) (h : ℤ)
    (hstep : depthStep p d = DepthOutcome.hit c h) :
    h = height_on_screen p.playerHeight
          (p.heightmap (sample_x p.posx p.cosa d) (sample_y p.posy p.sina d p.mapHeight)
            - curvature p.rayDistance d)
          ((d : ℚ) * p.cosCorr) p.scaleHeight p.tanOfPitch := by
  unfold depthStep at hstep
  split_ifs at hstep
  rw [DepthOutcome.hit.injEq] at hstep
  exact hstep.2.symm

/-- Witness for claim C4 (amended): the depth step of `P4` is processed
and its screen coordinate is the truncated projection. -/
theorem depth_step_screen_coordinate_truncated_witness :
    depthStep P4 1 = DepthOutcome.hit cP0 1 ∧
    (1 : ℤ) = height_on_screen P4.playerHeight
      (P4.heightmap (sample_x P4.posx P4.cosa 1) (sample_y P4.posy P4.sina 1 P4.mapHeight)
        - curvature P4.rayDistance 1)
      (((1 : ℕ) : ℚ) * P4.cosCorr) P4.scaleHeight P4.tanOfPitch :=
  ⟨by norm_num [depthStep, sample_x, sample_y, pythonInt, curvature, height_on_screen, P4, cP0],
    depth_step_screen_coordinate_truncated P4 1 cP0 1
      (by norm_num [depthStep, sample_x, sample_y, pythonInt, curvature, height_on_screen,
        P4, cP0])⟩

/-- Claim C5 counterexample: the map is sampled at a depth step whose
floor-based sample index is outside `[0, map_width)`: with
`camera.position.x + depth * cos_a = -1/2`, `floor` gives `-1` (so the
claim says the step is skipped) while the code truncates toward zero,
obtains `x = 0`, and samples the map. -/
theorem sample_x_truncation_differs_from_floor :
    depthStep P5 1 = DepthOutcome.hit cP0 125 ∧
    (⌊P5.posx + ((1 : ℕ) : ℚ) * P5.cosa⌋ : ℤ) = -1 ∧
    ((-1 : ℤ) < 0 ∨ P5.mapWidth ≤ -1) := by
  have hc : (⌈-((1 : ℚ) / 2)⌉ : ℤ) = 0 := by
    rw [Int.ceil_eq_iff]
    constructor <;> norm_num
  refine ⟨?_, ?_, Or.inl (by norm_num)⟩
  · norm_num [depthStep, sample_x, sample_y, pythonInt, curvature, height_on_screen, P5, cP0, hc]
  · norm_num [P5]

/-- Claim C5 (amended): for every depth step that samples the map, the
sample indices are `sample_x = int(camera.position.x + depth * cos_a)`
(truncation toward zero, not floor) lying in `[0, map_width)` — the step
is skipped otherwise, with no wrap on x — and
`sample_y = int(camera.position.y + depth * sin_a) mod map_height`,
non-negative by floor-modulo (for example `-1 mod map_height =
map_height - 1`), so no out-of-bounds map read occurs. -/
theorem sampling_in_bounds_with_truncation (p : StepParams) (d : ℕ) (c : Color) (h : ℤ)
    (hm : 0 < p.mapHeight) (hstep : depthStep p d = DepthOutcome.hit c h) :
    (0 ≤ sample_x p.posx p.cosa d ∧ sample_x p.posx p.cosa d < p.mapWidth) ∧
    (0 ≤ sample_y p.posy p.sina d p.mapHeight ∧
      sample_y p.posy p.sina d p.mapHeight < p.mapHeight) ∧
    c = p.colormap (sample_x p.posx p.cosa d) (sample_y p.posy p.sina d p.mapHeight) ∧
    (-1 : ℤ) % p.mapHeight = p.mapHeight - 1 := by
  have hy0 : 0 ≤ sample_y p.posy p.sina d p.mapHeight :=
    Int.emod_nonneg _ (ne_of_gt hm)
  have hy1 : sample_y p.posy p.sina d p.mapHeight < p.mapHeight :=
    Int.emod_lt_of_pos _ hm
  have hmod : (-1 : ℤ) % p.mapHeight = p.mapHeight - 1 := by
    have hneg : (-1 : ℤ) = (p.mapHeight - 1) + p.mapHeight * (-1) := by ring
    rw [hneg, Int.add_mul_emod_self_left, Int.emod_eq_of_lt (by omega) (by omega)]
  unfold depthStep at hstep
  split_ifs at hstep with h1 h2 h3
  rw [DepthOutcome.hit.injEq] at hstep
  refine ⟨⟨by omega, by omega⟩, ⟨hy0, hy1⟩, hstep.1.symm, hmod⟩

/-- Witness for claim C5 (amended) at the concrete ray `P1`, depth 1. -/
theorem sampling_in_bounds_with_truncation_witness :
    (0 : ℤ) < P1.mapHeight ∧ depthStep P1 1 = DepthOutcome.hit cP0 10 ∧
    ((0 ≤ sample_x P1.posx P1.cosa 1 ∧ sample_x P1.posx P1.cosa 1 < P1.mapWidth) ∧
      (0 ≤ sample_y P1.posy P1.sina 1 P1.mapHeight ∧
        sample_y P1.posy P1.sina 1 P1.mapHeight < P1.mapHeight) ∧
      cP0 = P1.colormap (sample_x P1.posx P1.cosa 1) (sample_y P1.posy P1.sina 1 P1.mapHeight) ∧
      (-1 : ℤ) % P1.mapHeight = P1.mapHeight - 1) :=
  ⟨by norm_num [P1], by
    norm_num [depthStep, sample_x, sample_y, pythonInt, curvature, height_on_screen, P1, cP0],
    sampling_in_bounds_with_truncation P1 1 cP0 10 (by norm_num [P1]) (by
      norm_num [depthStep, sample_x, sample_y, pythonInt, curvature, height_on_screen, P1, cP0])⟩

/-- Claim C6 counterexample: in a concrete painted column the final
occlusion value is 3, so the claim predicts fading over the rows
`[3 - 1, 3 - 1 + fading_width) = [2, 6)`; yet row 9, outside that window,
is modified by the fading loop (its painted terrain color `cP1` becomes
the sky color `cA`): the code starts fading at the occlusion value held
just before the final paint, not at the final occlusion value. -/
theorem fading_start_not_final_horizon :
    (runColumnPaint P1 20 cA).ybuf = 3 ∧
    (runColumnPaint P1 20 cA).col 9 = cP1 ∧
    (runColumn P1 20 4 cA).col 9 = cA ∧
    cA ≠ cP1 ∧
    ¬ ((3 : ℤ) - 1 ≤ 9 ∧ (9 : ℤ) < 3 - 1 + 4) := by
  have h1 : depthStep P1 1 = DepthOutcome.hit cP0 10 := by
    norm_num [depthStep, sample_x, sample_y, pythonInt, curvature, height_on_screen, P1, cP0]
  have h2 : depthStep P1 2 = DepthOutcome.hit cP1 3 := by
    norm_num [depthStep, sample_x, sample_y, pythonInt, curvature, height_on_screen, P1, cP1]
  have hr : List.range (P1.rayDistance - 1) = [0, 1] := by decide
  have hf : List.range 4 = [0, 1, 2, 3] := by decide
  refine ⟨?_, ?_, ?_, by simp [cA, cP1], by omega⟩
  · norm_num [runColumnPaint, depthFold, hr, h1, h2, applyOutcome, paintStep,
      contactUpdate, clampNonneg, initColState, intRange, cP0, cP1]
  · norm_num [runColumnPaint, depthFold, hr, h1, h2, applyOutcome, paintStep,
      contactUpdate, clampNonneg, initColState, intRange, cP0, cP1]
  · norm_num [runColumn, runColumnPaint, depthFold, hr, hf, h1, h2, applyOutcome, paintStep,
      contactUpdate, clampNonneg, initColState, intRange, fadeColumn, fadeIter,
      blendToBackground, cA, cP0, cP1]

/-- Claim C6 (amended): for every column in which a paint occurs, the
fading loop starts at `top = b - 1` where `b` is the occlusion value held
just before that paint (the row one past the bottom of the painted
segment), and — when that paint is the last one of the column — blends
exactly the rows `top + delta` for `delta` in `[0, fading_width)`; those
rows are all non-negative, so the negative-row skip never fires. -/
theorem fading_start_prev_ybuffer (screenHeight : ℤ) (c : Color) (h : ℤ) (s : ColState)
    (f : ℕ) (bg : Color) (hc : s.contacted = true) (hp : clampNonneg h < s.ybuf) :
    (paintStep screenHeight c h s).mvp = s.ybuf - 1 ∧
    (fadeColumn f bg (paintStep screenHeight c h s)).written
      = (paintStep screenHeight c h s).written
        ++ (List.range f).map (fun d => (s.ybuf - 1) + (d : ℤ)) := by
  have hmvp : (paintStep screenHeight c h s).mvp = s.ybuf - 1 :=
    paintStep_mvp screenHeight c h s hc hp
  have hnn : 0 ≤ (paintStep screenHeight c h s).mvp := by
    have := clampNonneg_nonneg h
    omega
  refine ⟨hmvp, ?_⟩
  rw [fade_written f bg _ hnn]
  simp only [hmvp]

/-- Witness for claim C6 (amended) at a concrete contacted column state
whose final paint lowers the occlusion record from 10 to 3. -/
theorem fading_start_prev_ybuffer_witness :
    sWit6.contacted = true ∧ clampNonneg 3 < sWit6.ybuf ∧
    ((paintStep 20 cP1 3 sWit6).mvp = sWit6.ybuf - 1 ∧
      (fadeColumn 2 cA (paintStep 20 cP1 3 sWit6)).written
        = (paintStep 20 cP1 3 sWit6).written
          ++ (List.range 2).map (fun d => (sWit6.ybuf - 1) + (d : ℤ))) :=
  ⟨rfl, by norm_num [clampNonneg, sWit6],
    fading_start_prev_ybuffer 20 cP1 3 sWit6 2 cA rfl (by norm_num [clampNonneg, sWit6])⟩

/-- Claim C7: the source has no guard on a zero fisheye-corrected depth:
on the concrete in-bounds ray `P7` with `cos(camera.heading - ray_angle)
= 0` the depth step reaches the unguarded division (outcome `divFault`)
instead of being skipped as the claim demands. -/
theorem zero_corrected_depth_faults :
    depthStep P7 1 = DepthOutcome.divFault ∧
    depthStep P7 1 ≠ DepthOutcome.skipped := by
  have h : depthStep P7 1 = DepthOutcome.divFault := by
    norm_num [depthStep, sample_x, sample_y, pythonInt, curvature, P7]
  exact ⟨h, by rw [h]; simp⟩

/-- Claim C8: `BackgroundConfig.__init__` performs no validation, so
construction with `max_altitude = min_altitude` succeeds, and the
interpolation in `get_background_color` then reaches its division by the
zero altitude range at runtime (modelled as the `none` outcome). -/
theorem background_config_accepts_degenerate_range :
    BackgroundConfig.make 5 5 cP0 cP1 = some ⟨5, 5, cP0, cP1⟩ ∧
    get_background_color ⟨5, 5, cP0, cP1⟩ 400 = none := by
  constructor
  · rfl
  · unfold get_background_color
    norm_num

/-- Claim C9: `load_map` raises `FileNotFoundError` when a path is
missing and returns a `Map` holding the two grids when the sizes match;
but on a size mismatch it raises `TypeError` (from
`super.__init__(*args)` in `SizesNotMatchException.__init__`, where
`super` is the builtin type, not a `super()` call), not the documented
`SizesNotMatchException`. -/
theorem size_mismatch_raises_type_error :
    load_map true true imgA imgB = LoadResult.typeErrorSuperInit ∧
    load_map false true imgA imgB = LoadResult.fileNotFound ∧
    load_map true true imgA imgA = LoadResult.ok ⟨imgA, imgA⟩ := by
  refine ⟨?_, rfl, ?_⟩
  · unfold load_map
    norm_num [imgA, imgB]
  · unfold load_map
    norm_num [imgA]

end Voxel
